import Mathlib

/-!
Shallow embedding of the `cex_connector` repository (src/websocket.rs and
src/latency.rs), together with theorems settling the frozen claims about its
specification.

Conventions:
* Rust byte slices / `Vec<u8>` are modelled as `List Nat` (each element a byte).
* Machine integers (`u8`, `u16`, `u64`, `usize`) are modelled as `Nat`, with an
  explicit `% 2 ^ w` at the points where the Rust code casts or could wrap.
* Fallible operations return `Except WsError`.
* The transport is modelled as an explicit byte list: reads consume a prefix of
  the input list (a failing `read_exact` becomes `WsError.Io`), writes return
  the encoded bytes.  Entropy (the per-frame mask key) is passed explicitly.
* `f64`-valued statistics are modelled exactly over `ℚ`.
-/

set_option maxRecDepth 100000

namespace CexConnector

/-- `(n as u16).to_be_bytes()` — big-endian 2-byte encoding after the u16 cast. -/
def be2 (n : Nat) : List Nat :=
  [n % 65536 / 256, n % 256]

/-- `(n as u64).to_be_bytes()` — big-endian 8-byte encoding after the u64 cast. -/
def be8 (n : Nat) : List Nat :=
  [n % 2 ^ 64 / 2 ^ 56, n % 2 ^ 56 / 2 ^ 48, n % 2 ^ 48 / 2 ^ 40, n % 2 ^ 40 / 2 ^ 32,
   n % 2 ^ 32 / 2 ^ 24, n % 2 ^ 24 / 2 ^ 16, n % 2 ^ 16 / 2 ^ 8, n % 2 ^ 8]

/-- The `WebSocketError` enum of src/websocket.rs.  Error payloads that carry
no information relevant to the claims (wrapped io/TLS errors, UTF-8 error
details) are dropped; message strings are kept verbatim. -/
inductive WsError where
  | Io
  | InvalidUtf8
  | ProtocolError (msg : String)
  | HandshakeError (msg : String)
  | ConnectionClosed
  | FrameTooLarge
  | InvalidCloseCode (code : Nat)
  | Timeout
  | TlsError
  | DnsError (msg : String)
deriving DecidableEq, Repr

-- WebSocket opcodes (src/websocket.rs lines 15-20)
def OPCODE_CONTINUATION : Nat := 0x0

def OPCODE_TEXT : Nat := 0x1

def OPCODE_BINARY : Nat := 0x2

def OPCODE_CLOSE : Nat := 0x8

def OPCODE_PING : Nat := 0x9

def OPCODE_PONG : Nat := 0xa

/-- `CLOSE_NORMAL` (line 23). -/
def CLOSE_NORMAL : Nat := 1000

/-- `MAX_FRAME_SIZE` (line 32): 16 MiB default maximum frame size. -/
def MAX_FRAME_SIZE : Nat := 16 * 1024 * 1024

/-- `WEBSOCKET_MAGIC_STRING` (line 33). -/
def WEBSOCKET_MAGIC_STRING : String := "258EAFA5-E914-47DA-95CA-C5AB0DC85B11"

/-- `is_control_frame` (lines 694-696): `opcode >= 0x8`. -/
def is_control_frame (opcode : Nat) : Bool := decide (0x8 ≤ opcode)

/-- `is_valid_close_code` (lines 698-703). -/
def is_valid_close_code (code : Nat) : Bool :=
  decide ((1000 ≤ code ∧ code ≤ 1003) ∨ (1007 ≤ code ∧ code ≤ 1011) ∨
    (3000 ≤ code ∧ code ≤ 4999))

/-- The decoded frame (struct `WebSocketFrame`, lines 558-563). -/
structure WebSocketFrame where
  fin : Bool
  opcode : Nat
  payload : List Nat
deriving DecidableEq, Repr

/-- Masking loop of `send_frame` (lines 421-423) from position `i`:
`payload[i] ^ mask_key[i % 4]`. -/
def maskBytesAux (maskKey : List Nat) (i : Nat) : List Nat → List Nat
  | [] => []
  | b :: t => (b ^^^ maskKey.getD (i % 4) 0) :: maskBytesAux maskKey (i + 1) t

/-- Masking loop of `send_frame` (lines 421-423):
`payload[i] ^ mask_key[i % 4]`. -/
def mask_bytes (maskKey : List Nat) (payload : List Nat) : List Nat :=
  maskBytesAux maskKey 0 payload

/-- `send_frame` (lines 392-428).  The mask key is passed in (the Rust code
draws it from `generate_mask_key`, a time/thread-id hash); the function
returns the bytes written to the stream. -/
def send_frame (maxFrameSize : Nat) (opcode : Nat) (maskKey : List Nat)
    (payload : List Nat) : Except WsError (List Nat) :=
  if payload.length > maxFrameSize then .error .FrameTooLarge
  else
    let lenPart :=
      if payload.length < 126 then [0x80 ||| payload.length]
      else if payload.length < 65536 then (0x80 ||| 126) :: be2 payload.length
      else (0x80 ||| 127) :: be8 payload.length
    .ok ((0x80 ||| opcode) :: lenPart ++ maskKey ++ mask_bytes maskKey payload)

/-- Extended payload length parsing of `read_frame` (lines 499-515): the 7-bit
field escapes `126` (2-byte big-endian length) and `127` (8-byte big-endian
length, rejecting a set high bit).  `read_exact` hitting end of input is an
I/O error. -/
def readPayloadLen (len7 : Nat) (rest : List Nat) : Except WsError (Nat × List Nat) :=
  if len7 = 126 then
    match rest with
    | l0 :: l1 :: rest2 => .ok (l0 * 256 + l1, rest2)
    | _ => .error .Io
  else if len7 = 127 then
    match rest with
    | l0 :: l1 :: l2 :: l3 :: l4 :: l5 :: l6 :: l7 :: rest2 =>
      let n := ((((((l0 * 256 + l1) * 256 + l2) * 256 + l3) * 256 + l4) * 256 + l5)
        * 256 + l6) * 256 + l7
      if n &&& 0x8000000000000000 ≠ 0 then
        .error (.ProtocolError "Invalid payload length")
      else .ok (n, rest2)
    | _ => .error .Io
  else .ok (len7, rest)

/-- `read_frame` (lines 475-547), reading from an explicit byte list and
returning the decoded frame together with the unread remainder of the input.
The validation order follows the source: reserved bits, mask bit, extended
length (with its high-bit check), the frame-size limit, payload read, and
finally the control-frame checks. -/
def read_frame (maxFrameSize : Nat) (input : List Nat) :
    Except WsError (WebSocketFrame × List Nat) :=
  match input with
  | [] => .error .Io
  | [_] => .error .Io
  | b0 :: b1 :: rest =>
    let fin : Bool := decide (b0 &&& 0x80 ≠ 0)
    let rsv := (b0 &&& 0x70) >>> 4
    let opcode := b0 &&& 0x0f
    let masked : Bool := decide (b1 &&& 0x80 ≠ 0)
    let len7 := b1 &&& 0x7f
    if rsv ≠ 0 then .error (.ProtocolError "Reserved bits must be zero")
    else if masked then .error (.ProtocolError "Server frames must not be masked")
    else
      match readPayloadLen len7 rest with
      | .error e => .error e
      | .ok (payloadLen, rest2) =>
        if payloadLen > maxFrameSize then .error .FrameTooLarge
        else if rest2.length < payloadLen then .error .Io
        else
          let payload := rest2.take payloadLen
          let rest3 := rest2.drop payloadLen
          if is_control_frame opcode = true ∧ fin = false then
            .error (.ProtocolError "Control frames must not be fragmented")
          else if is_control_frame opcode = true ∧ payload.length > 125 then
            .error (.ProtocolError "Control frame payload too large")
          else .ok (⟨fin, opcode, payload⟩, rest3)

/-- Second-byte validity of a UTF-8 3-byte sequence given its lead byte, as
checked by `String::from_utf8` (RFC 3629: no overlongs, no surrogates). -/
def utf8Valid3 (b0 b1 : Nat) : Bool :=
  decide ((b0 = 0xE0 ∧ 0xA0 ≤ b1 ∧ b1 ≤ 0xBF) ∨
    (((0xE1 ≤ b0 ∧ b0 ≤ 0xEC) ∨ b0 = 0xEE ∨ b0 = 0xEF) ∧ 0x80 ≤ b1 ∧ b1 ≤ 0xBF) ∨
    (b0 = 0xED ∧ 0x80 ≤ b1 ∧ b1 ≤ 0x9F))

/-- Second-byte validity of a UTF-8 4-byte sequence given its lead byte
(RFC 3629: no overlongs, maximum U+10FFFF). -/
def utf8Valid4 (b0 b1 : Nat) : Bool :=
  decide ((b0 = 0xF0 ∧ 0x90 ≤ b1 ∧ b1 ≤ 0xBF) ∨
    (0xF1 ≤ b0 ∧ b0 ≤ 0xF3 ∧ 0x80 ≤ b1 ∧ b1 ≤ 0xBF) ∨
    (b0 = 0xF4 ∧ 0x80 ≤ b1 ∧ b1 ≤ 0x8F))

/-- Strict UTF-8 decoding, the model of `String::from_utf8` used by the text
branch of `read_message`: `none` on any invalid byte sequence. -/
def utf8Decode : List Nat → Option (List Char)
  | [] => some []
  | b0 :: rest =>
    if b0 < 0x80 then (utf8Decode rest).map (fun cs => Char.ofNat b0 :: cs)
    else if 0xC2 ≤ b0 ∧ b0 ≤ 0xDF then
      match rest with
      | b1 :: rest2 =>
        if 0x80 ≤ b1 ∧ b1 ≤ 0xBF then
          (utf8Decode rest2).map (fun cs => Char.ofNat ((b0 - 0xC0) * 64 + (b1 - 0x80)) :: cs)
        else none
      | [] => none
    else if 0xE0 ≤ b0 ∧ b0 ≤ 0xEF then
      match rest with
      | b1 :: b2 :: rest2 =>
        if utf8Valid3 b0 b1 ∧ 0x80 ≤ b2 ∧ b2 ≤ 0xBF then
          (utf8Decode rest2).map
            (fun cs => Char.ofNat ((b0 - 0xE0) * 4096 + (b1 - 0x80) * 64 + (b2 - 0x80)) :: cs)
        else none
      | _ => none
    else if 0xF0 ≤ b0 ∧ b0 ≤ 0xF4 then
      match rest with
      | b1 :: b2 :: b3 :: rest2 =>
        if utf8Valid4 b0 b1 ∧ 0x80 ≤ b2 ∧ b2 ≤ 0xBF ∧ 0x80 ≤ b3 ∧ b3 ≤ 0xBF then
          (utf8Decode rest2).map
            (fun cs => Char.ofNat ((b0 - 0xF0) * 262144 + (b1 - 0x80) * 4096
              + (b2 - 0x80) * 64 + (b3 - 0x80)) :: cs)
        else none
      | _ => none
    else none

def replacementChar : Char := Char.ofNat 0xFFFD

/-- Lossy UTF-8 decoding, the model of `String::from_utf8_lossy` used by the
close-reason branch of `read_message`: each maximal invalid subpart is
replaced by U+FFFD. -/
def utf8Lossy (l : List Nat) : List Char :=
  match l with
  | [] => []
  | b0 :: rest =>
    if b0 < 0x80 then Char.ofNat b0 :: utf8Lossy rest
    else if 0xC2 ≤ b0 ∧ b0 ≤ 0xDF then
      match hr : rest with
      | b1 :: rest1 =>
        if 0x80 ≤ b1 ∧ b1 ≤ 0xBF then
          Char.ofNat ((b0 - 0xC0) * 64 + (b1 - 0x80)) :: utf8Lossy rest1
        else replacementChar :: utf8Lossy rest
      | [] => [replacementChar]
    else if 0xE0 ≤ b0 ∧ b0 ≤ 0xEF then
      match hr : rest with
      | [] => [replacementChar]
      | b1 :: rest1 =>
        if utf8Valid3 b0 b1 then
          match hr1 : rest1 with
          | [] => [replacementChar]
          | b2 :: rest2 =>
            if 0x80 ≤ b2 ∧ b2 ≤ 0xBF then
              Char.ofNat ((b0 - 0xE0) * 4096 + (b1 - 0x80) * 64 + (b2 - 0x80)) :: utf8Lossy rest2
            else replacementChar :: utf8Lossy rest1
        else replacementChar :: utf8Lossy rest
    else if 0xF0 ≤ b0 ∧ b0 ≤ 0xF4 then
      match hr : rest with
      | [] => [replacementChar]
      | b1 :: rest1 =>
        if utf8Valid4 b0 b1 then
          match hr1 : rest1 with
          | [] => [replacementChar]
          | b2 :: rest2 =>
            if 0x80 ≤ b2 ∧ b2 ≤ 0xBF then
              match hr2 : rest2 with
              | [] => [replacementChar]
              | b3 :: rest3 =>
                if 0x80 ≤ b3 ∧ b3 ≤ 0xBF then
                  Char.ofNat ((b0 - 0xF0) * 262144 + (b1 - 0x80) * 4096
                    + (b2 - 0x80) * 64 + (b3 - 0x80)) :: utf8Lossy rest3
                else replacementChar :: utf8Lossy rest2
            else replacementChar :: utf8Lossy rest1
        else replacementChar :: utf8Lossy rest
    else replacementChar :: utf8Lossy rest
termination_by l.length
decreasing_by
all_goals simp_all
all_goals omega

/-- The application-level message type (enum `WebSocketMessage`, lines 565-572). -/
inductive WebSocketMessage where
  | Text (s : String)
  | Binary (data : List Nat)
  | Ping (data : List Nat)
  | Pong (data : List Nat)
  | Close (code : Option Nat) (reason : String)
deriving DecidableEq, Repr

/-- The connection state relevant to the claims: the `closed` flag of
`WebSocketClient` (line 147) and the configured `max_frame_size`
(`WebSocketConfig`, line 95).  The stream, timeouts and ping clock live
outside the shallow embedding. -/
structure ClientState where
  closed : Bool
  maxFrameSize : Nat
deriving DecidableEq, Repr

/-- `send_text` (lines 323-328); the payload is the UTF-8 byte sequence
`text.as_bytes()`, the result the bytes written to the stream. -/
def send_text (st : ClientState) (maskKey : List Nat) (textBytes : List Nat) :
    Except WsError (List Nat) :=
  if st.closed then .error .ConnectionClosed
  else send_frame st.maxFrameSize OPCODE_TEXT maskKey textBytes

/-- `send_binary` (lines 330-335). -/
def send_binary (st : ClientState) (maskKey : List Nat) (data : List Nat) :
    Except WsError (List Nat) :=
  if st.closed then .error .ConnectionClosed
  else send_frame st.maxFrameSize OPCODE_BINARY maskKey data

/-- `send_ping` (lines 337-349); the `last_ping` timestamp update is
real-time state not modelled here. -/
def send_ping (st : ClientState) (maskKey : List Nat) (data : List Nat) :
    Except WsError (List Nat) :=
  if st.closed then .error .ConnectionClosed
  else if data.length > 125 then
    .error (.ProtocolError "Ping payload too large (max 125 bytes)")
  else send_frame st.maxFrameSize OPCODE_PING maskKey data

/-- `send_pong` (lines 351-361). -/
def send_pong (st : ClientState) (maskKey : List Nat) (data : List Nat) :
    Except WsError (List Nat) :=
  if st.closed then .error .ConnectionClosed
  else if data.length > 125 then
    .error (.ProtocolError "Pong payload too large (max 125 bytes)")
  else send_frame st.maxFrameSize OPCODE_PONG maskKey data

/-- `close_with_code` (lines 367-390): a no-op success when already closed,
otherwise close-code validation, reason-length validation, and a close frame
whose payload is the big-endian code followed by the reason bytes.  Returns
the successor state and the bytes written. -/
def close_with_code (st : ClientState) (maskKey : List Nat) (code : Nat)
    (reason : List Nat) : Except WsError (ClientState × List Nat) :=
  if st.closed then .ok (st, [])
  else if is_valid_close_code code = false then .error (.InvalidCloseCode code)
  else if reason.length > 123 then
    .error (.ProtocolError "Close reason too long (max 123 bytes)")
  else
    match send_frame st.maxFrameSize OPCODE_CLOSE maskKey (be2 code ++ reason) with
    | .error e => .error e
    | .ok bytes => .ok ({ st with closed := true }, bytes)

/-- `close` (lines 363-365): `close_with_code(CLOSE_NORMAL, "")`. -/
def close (st : ClientState) (maskKey : List Nat) :
    Except WsError (ClientState × List Nat) :=
  close_with_code st maskKey CLOSE_NORMAL []

/-- `read_message` (lines 430-473): decode one frame from the input and
dispatch on its opcode.  The opportunistic keepalive ping and the automatic
pong reply only write to the stream with errors ignored (they cannot change
the returned message or state) and the stream is not part of this embedding,
so they are omitted.  Returns the message, the successor state and the
unread remainder of the input. -/
def read_message (st : ClientState) (input : List Nat) :
    Except WsError (WebSocketMessage × ClientState × List Nat) :=
  if st.closed then .error .ConnectionClosed
  else
    match read_frame st.maxFrameSize input with
    | .error e => .error e
    | .ok (frame, rest) =>
      if frame.opcode = OPCODE_TEXT then
        match utf8Decode frame.payload with
        | none => .error .InvalidUtf8
        | some cs => .ok (.Text (String.mk cs), st, rest)
      else if frame.opcode = OPCODE_BINARY then .ok (.Binary frame.payload, st, rest)
      else if frame.opcode = OPCODE_PING then .ok (.Ping frame.payload, st, rest)
      else if frame.opcode = OPCODE_PONG then .ok (.Pong frame.payload, st, rest)
      else if frame.opcode = OPCODE_CLOSE then
        let stClosed := { st with closed := true }
        if frame.payload.length ≥ 2 then
          let code := frame.payload.getD 0 0 * 256 + frame.payload.getD 1 0
          let reason :=
            if frame.payload.length > 2 then String.mk (utf8Lossy (frame.payload.drop 2))
            else ""
          .ok (.Close (some code) reason, stClosed, rest)
        else .ok (.Close none "", stClosed, rest)
      else .error (.ProtocolError ("Unknown opcode: " ++ toString frame.opcode))

/-- `url.find(needle)` — index of the first occurrence of a substring
(byte indices coincide with character indices on the ASCII URLs at issue). -/
def findSubstr (needle : List Char) (hay : List Char) : Option Nat :=
  if needle.isPrefixOf hay then some 0
  else
    match hay with
    | [] => none
    | _ :: t => (findSubstr needle t).map (fun i => i + 1)

/-- `host_port.rfind(..)` specialised to the colon character — index of the
last colon, if any. -/
def rfindColon : List Char → Option Nat
  | [] => none
  | c :: t =>
    match rfindColon t with
    | some i => some (i + 1)
    | none => if c = ':' then some 0 else none

/-- `port_str.parse::<u16>()`: an optional leading plus sign, at least one
digit, decimal value at most 65535. -/
def parseU16 (s : List Char) : Option Nat :=
  let digits :=
    match s with
    | '+' :: rest => rest
    | _ => s
  if digits.isEmpty then none
  else if digits.all (fun c => c.isDigit) then
    let v := digits.foldl (fun acc c => acc * 10 + (c.toNat - 48)) 0
    if v ≤ 65535 then some v else none
  else none

/-- Struct `ParsedWebSocketUrl` (lines 575-581). -/
structure ParsedWebSocketUrl where
  scheme : String
  host : String
  port : Nat
  path : String
deriving DecidableEq, Repr

/-- The host-port part of the remainder after `://`: everything before the
first slash, or the whole remainder if there is none (lines 588-592). -/
def hostPortOf (rest : List Char) : List Char :=
  match rest.findIdx? (· == '/') with
  | some j => rest.take j
  | none => rest

/-- The path part of the remainder after `://`: the first slash onwards, or
`"/"` if there is no slash (lines 588-592). -/
def pathOf (rest : List Char) : List Char :=
  match rest.findIdx? (· == '/') with
  | some j => rest.drop j
  | none => ['/']

/-- `parse_websocket_url` (lines 583-619). -/
def parse_websocket_url (url : String) : Except WsError ParsedWebSocketUrl :=
  match findSubstr ("://".data) url.data with
  | none => .error (.ProtocolError "Invalid URL format")
  | some i =>
    let scheme := url.data.take i
    let rest := url.data.drop (i + 3)
    let hostPort := hostPortOf rest
    let path := pathOf rest
    match rfindColon hostPort with
    | some k =>
      let host := hostPort.take k
      let portStr := hostPort.drop (k + 1)
      match parseU16 portStr with
      | none => .error (.ProtocolError "Invalid port number")
      | some port => .ok ⟨String.mk scheme, String.mk host, port, String.mk path⟩
    | none =>
      if scheme = "ws".data then
        .ok ⟨String.mk scheme, String.mk hostPort, 80, String.mk path⟩
      else if scheme = "wss".data then
        .ok ⟨String.mk scheme, String.mk hostPort, 443, String.mk path⟩
      else .error (.ProtocolError "Invalid scheme")

/-- The length encoding of `send_frame` without the mask bit, i.e. the length
bytes as a server (unmasked) frame would carry them: 7-bit direct value, or
escape 126 with 2 big-endian bytes, or escape 127 with 8 big-endian bytes. -/
def lenBytesPlain (n : Nat) : List Nat :=
  if n < 126 then [n]
  else if n < 65536 then 126 :: be2 n
  else 127 :: be8 n

/-- A client frame with the masking removed: the first byte and length
encoding exactly as produced by `send_frame`, but with the mask bit clear, no
mask key, and the raw payload.  This is what the masked output of
`send_frame` becomes after clearing bit 7 of its second byte, deleting the
4 key bytes and XOR-unmasking the payload. -/
def serverFrame (opcode : Nat) (payload : List Nat) : List Nat :=
  (0x80 ||| opcode) :: lenBytesPlain payload.length ++ payload

/-- 32-bit left rotation on `Nat` values below `2 ^ 32`. -/
def rotl32 (k n : Nat) : Nat := ((n <<< k) ||| (n >>> (32 - k))) % 2 ^ 32

/-- Big-endian 4-byte encoding of a 32-bit word. -/
def be4 (n : Nat) : List Nat := [n / 2 ^ 24 % 256, n / 2 ^ 16 % 256, n / 2 ^ 8 % 256, n % 256]

/-- Big-endian 32-bit words from a byte list (the 16 words of a SHA-1 block). -/
def toWordsBE : List Nat → List Nat
  | b0 :: b1 :: b2 :: b3 :: rest =>
    (((b0 * 256 + b1) * 256 + b2) * 256 + b3) :: toWordsBE rest
  | _ => []

/-- SHA-1 message-schedule expansion of the 16 block words to 80 words. -/
def sha1Schedule (ws : List Nat) : List Nat :=
  (List.range 64).foldl
    (fun acc _ =>
      let n := acc.length
      acc ++ [rotl32 1 ((acc.getD (n - 3) 0) ^^^ (acc.getD (n - 8) 0) ^^^
        (acc.getD (n - 14) 0) ^^^ (acc.getD (n - 16) 0))])
    ws

/-- SHA-1 round function. -/
def sha1F (i b c d : Nat) : Nat :=
  if i < 20 then (b &&& c) ||| ((b ^^^ 0xFFFFFFFF) &&& d)
  else if i < 40 then b ^^^ c ^^^ d
  else if i < 60 then (b &&& c) ||| (b &&& d) ||| (c &&& d)
  else b ^^^ c ^^^ d

/-- SHA-1 round constants. -/
def sha1K (i : Nat) : Nat :=
  if i < 20 then 0x5A827999 else if i < 40 then 0x6ED9EBA1
  else if i < 60 then 0x8F1BBCDC else 0xCA62C1D6

/-- One SHA-1 round on the five-word state. -/
def sha1Round (st : Nat × Nat × Nat × Nat × Nat) (iw : Nat × Nat) :
    Nat × Nat × Nat × Nat × Nat :=
  let (a, b, c, d, e) := st
  let (i, wi) := iw
  let temp := (rotl32 5 a + sha1F i b c d + e + sha1K i + wi) % 2 ^ 32
  (temp, a, rotl32 30 b, c, d)

/-- SHA-1 compression of one 64-byte block. -/
def sha1Block (h : Nat × Nat × Nat × Nat × Nat) (block : List Nat) :
    Nat × Nat × Nat × Nat × Nat :=
  let w := sha1Schedule (toWordsBE block)
  let (a, b, c, d, e) := ((List.range 80).zip w).foldl sha1Round h
  let (h0, h1, h2, h3, h4) := h
  ((h0 + a) % 2 ^ 32, (h1 + b) % 2 ^ 32, (h2 + c) % 2 ^ 32, (h3 + d) % 2 ^ 32,
    (h4 + e) % 2 ^ 32)

/-- Split a byte list into 64-byte blocks (structural recursion on a fuel
bound so the definition reduces inside the kernel). -/
def chunks64Aux : Nat → List Nat → List (List Nat)
  | 0, _ => []
  | _, [] => []
  | fuel + 1, b :: t => (b :: t.take 63) :: chunks64Aux fuel (t.drop 63)

/-- Split a byte list into 64-byte blocks. -/
def chunks64 (l : List Nat) : List (List Nat) := chunks64Aux l.length l

/-- SHA-1 padding: a 0x80 byte, zeros to 56 mod 64, and the 64-bit big-endian
bit length. -/
def sha1Pad (msg : List Nat) : List Nat :=
  let l := msg.length
  let k := (56 + 64 - (l + 1) % 64) % 64
  msg ++ [0x80] ++ List.replicate k 0 ++ be8 (l * 8)

/-- SHA-1 digest (20 bytes) of a byte list; the model of the `sha1` crate
used by `generate_accept_key`. -/
def sha1 (msg : List Nat) : List Nat :=
  let final := (chunks64 (sha1Pad msg)).foldl sha1Block
    (0x67452301, 0xEFCDAB89, 0x98BADCFE, 0x10325476, 0xC3D2E1F0)
  be4 final.1 ++ be4 final.2.1 ++ be4 final.2.2.1 ++ be4 final.2.2.2.1 ++ be4 final.2.2.2.2

/-- The standard base64 alphabet character for a 6-bit value. -/
def b64Char (n : Nat) : Char :=
  "ABCDEFGHIJKLMNOPQRSTUVWXYZabcdefghijklmnopqrstuvwxyz0123456789+/".data.getD n 'A'

/-- RFC 4648 standard base64 of a byte list, with padding; the model of
`BASE64_STANDARD.encode`. -/
def base64Chars : List Nat → List Char
  | [] => []
  | [a] => [b64Char (a / 4), b64Char (a % 4 * 16), '=', '=']
  | [a, b] => [b64Char (a / 4), b64Char (a % 4 * 16 + b / 16), b64Char (b % 16 * 4), '=']
  | a :: b :: c :: rest =>
    b64Char (a / 4) :: b64Char (a % 4 * 16 + b / 16) :: b64Char (b % 16 * 4 + c / 64) ::
      b64Char (c % 64) :: base64Chars rest

/-- ASCII bytes of a string (`as_bytes()`; all strings involved are ASCII, so
UTF-8 bytes coincide with code points). -/
def strBytes (s : String) : List Nat := s.data.map Char.toNat

/-- `generate_accept_key` (lines 677-690): base64 of the SHA-1 digest of the
client key concatenated with the WebSocket GUID. -/
def generate_accept_key (key : String) : String :=
  String.mk (base64Chars (sha1 (strBytes (key ++ WEBSOCKET_MAGIC_STRING))))

/-- Struct `LatencyStats` (src/latency.rs lines 149-156).  All fields are
`u64`; additions are taken `% 2 ^ 64` where the Rust release build would
wrap. -/
structure LatencyStats where
  count : Nat
  total_latency_ns : Nat
  min_latency_ns : Nat
  max_latency_ns : Nat
  last_10 : List Nat
deriving DecidableEq, Repr

/-- `LatencyStats::new` (lines 159-167): count 0, sum 0, min `u64::MAX`,
max 0, empty window. -/
def LatencyStats.new : LatencyStats :=
  { count := 0, total_latency_ns := 0, min_latency_ns := 2 ^ 64 - 1,
    max_latency_ns := 0, last_10 := [] }

/-- `add_measurement` (lines 169-180): bump count and sum, update running
min/max, and append to the rolling window after evicting the front element
once the window holds 10. -/
def add_measurement (s : LatencyStats) (latency_ns : Nat) : LatencyStats :=
  { count := (s.count + 1) % 2 ^ 64
    total_latency_ns := (s.total_latency_ns + latency_ns) % 2 ^ 64
    min_latency_ns := min s.min_latency_ns latency_ns
    max_latency_ns := max s.max_latency_ns latency_ns
    last_10 := (if s.last_10.length ≥ 10 then s.last_10.drop 1 else s.last_10) ++ [latency_ns] }

/-- `average_latency_ms` (lines 182-188); the `f64` arithmetic is modelled
exactly over `ℚ` (the zero-sample branch returns the literal 0.0). -/
def average_latency_ms (s : LatencyStats) : ℚ :=
  if s.count = 0 then 0
  else (s.total_latency_ns : ℚ) / (s.count : ℚ) / 1000000

/-- `recent_average_ms` (lines 190-197), over `ℚ`. -/
def recent_average_ms (s : LatencyStats) : ℚ :=
  if s.last_10.isEmpty then 0
  else (s.last_10.sum : ℚ) / (s.last_10.length : ℚ) / 1000000

/-- `min_latency_ms` (lines 199-201), over `ℚ`. -/
def min_latency_ms (s : LatencyStats) : ℚ := (s.min_latency_ns : ℚ) / 1000000

/-- `max_latency_ms` (lines 203-205), over `ℚ`. -/
def max_latency_ms (s : LatencyStats) : ℚ := (s.max_latency_ns : ℚ) / 1000000

-- sanity checks
example : send_frame MAX_FRAME_SIZE 1 [0, 0, 0, 0] [] =
    .ok [0x81, 0x80, 0, 0, 0, 0] := by rfl

example : String.mk (base64Chars (sha1 (strBytes "abc"))) =
    "qZk+NkcGgWq6PiVxeFDCbJzQ2J0=" := by rfl

/-! ## Helper lemmas -/

/-- Bit arithmetic of the first frame byte `0x80 | opcode` for a 4-bit opcode. -/
theorem hdrByteBits (op : Nat) (h : op < 16) :
    (128 ||| op = 128 + op) ∧ ((128 + op) &&& 0x80 = 128) ∧
    ((128 + op) &&& 0x70 = 0) ∧ ((128 + op) &&& 0x0f = op) := by
  interval_cases op <;> exact ⟨by decide, by decide, by decide, by decide⟩

/-- Bit arithmetic of the second frame byte `0x80 | len` for a 7-bit length. -/
theorem lenByteBits (x : Nat) (h : x < 128) :
    (128 ||| x = 128 + x) ∧ ((128 + x) &&& 0x80 = 128) ∧
    (x &&& 0x80 = 0) ∧ (x &&& 0x7f = x) := by
  interval_cases x <;> exact ⟨by decide, by decide, by decide, by decide⟩

/-- Bit arithmetic of a first frame byte that is a bare 4-bit opcode, i.e.
with FIN (and the reserved bits) clear. -/
theorem ctrlByteBits (op : Nat) (h : op < 16) :
    (op &&& 0x80 = 0) ∧ (op &&& 0x70 = 0) ∧ (op &&& 0x0f = op) := by
  interval_cases op <;> exact ⟨by decide, by decide, by decide⟩

/-- A value below `2 ^ 63` has a clear top bit in the decoder's 64-bit check. -/
theorem and_msb_zero (n : Nat) (h : n < 2 ^ 63) : n &&& 0x8000000000000000 = 0 := by
  have h2 : (0x8000000000000000 : Nat) = 2 ^ 63 := by norm_num
  rw [h2, Nat.and_two_pow, Nat.testBit_eq_false_of_lt h]
  rfl

/-- Masking is length preserving. -/
theorem maskBytesAux_length (maskKey : List Nat) (i : Nat) (payload : List Nat) :
    (maskBytesAux maskKey i payload).length = payload.length := by
  induction payload generalizing i with
  | nil => rfl
  | cons b t ih => simp [maskBytesAux, ih]

/-- XOR masking is an involution (the XOR self-inverse property behind the
client mask). -/
theorem maskBytesAux_involution (maskKey : List Nat) (i : Nat) (payload : List Nat) :
    maskBytesAux maskKey i (maskBytesAux maskKey i payload) = payload := by
  induction payload generalizing i with
  | nil => rfl
  | cons b t ih => simp [maskBytesAux, ih, Nat.xor_cancel_right]

/-- `mask_bytes` with the same key is an involution. -/
theorem mask_bytes_involution (maskKey : List Nat) (payload : List Nat) :
    mask_bytes maskKey (mask_bytes maskKey payload) = payload :=
  maskBytesAux_involution maskKey 0 payload

/-! ## Claims about the handshake and the statistics -/

/-- C6: the accept-key derivation (base64 of the SHA-1 digest of the client
key concatenated with the GUID `258EAFA5-E914-47DA-95CA-C5AB0DC85B11`) maps
the RFC 6455 §1.3 client key `"dGhlIHNhbXBsZSBub25jZQ=="` to exactly
`"s3pPLMBiTxaQ9kYGzzhZRbK+xOo="`. -/
theorem accept_key_rfc_vector :
    generate_accept_key "dGhlIHNhbXBsZSBub25jZQ==" = "s3pPLMBiTxaQ9kYGzzhZRbK+xOo=" := by
  rfl

/-- C8: on an aggregator with zero samples (count 0, empty window) the overall
average and the recent (windowed) average both return 0.0 instead of failing
or dividing by zero. -/
theorem zero_sample_averages :
    LatencyStats.new.count = 0 ∧ LatencyStats.new.last_10 = [] ∧
    average_latency_ms LatencyStats.new = 0 ∧ recent_average_ms LatencyStats.new = 0 :=
  ⟨rfl, rfl, rfl, rfl⟩

/-- C9: a freshly constructed aggregator reports `min_latency_ms` as
`u64::MAX / 1_000_000` (about 1.8446744e13, in particular non-zero) while
`max_latency_ms` is 0.0; neither call fails. -/
theorem fresh_min_max_latency_ms :
    min_latency_ms LatencyStats.new = (2 ^ 64 - 1 : ℚ) / 1000000 ∧
    min_latency_ms LatencyStats.new ≠ 0 ∧
    max_latency_ms LatencyStats.new = 0 := by
  refine ⟨?_, ?_, ?_⟩ <;> norm_num [min_latency_ms, max_latency_ms, LatencyStats.new]

/-- The count after a fold of insertions: each insertion bumps the count
modulo `2 ^ 64`. -/
theorem foldl_add_count (xs : List Nat) :
    ∀ s : LatencyStats, s.count < 2 ^ 64 →
      (xs.foldl add_measurement s).count = (s.count + xs.length) % 2 ^ 64 := by
  induction xs with
  | nil =>
    intro s hs
    simp only [List.foldl_nil, List.length_nil, Nat.add_zero]
    omega
  | cons x t ih =>
    intro s hs
    rw [List.foldl_cons, ih _ (Nat.mod_lt _ (by norm_num))]
    simp only [add_measurement, List.length_cons]
    rw [Nat.mod_add_mod]
    congr 1
    omega

/-- The running minimum after a fold of insertions is the fold of `min`. -/
theorem foldl_add_min (xs : List Nat) :
    ∀ s : LatencyStats,
      (xs.foldl add_measurement s).min_latency_ns = xs.foldl min s.min_latency_ns := by
  induction xs with
  | nil => intro s; rfl
  | cons x t ih =>
    intro s
    rw [List.foldl_cons, List.foldl_cons, ih]
    rfl

/-- The running maximum after a fold of insertions is the fold of `max`. -/
theorem foldl_add_max (xs : List Nat) :
    ∀ s : LatencyStats,
      (xs.foldl add_measurement s).max_latency_ns = xs.foldl max s.max_latency_ns := by
  induction xs with
  | nil => intro s; rfl
  | cons x t ih =>
    intro s
    rw [List.foldl_cons, List.foldl_cons, ih]
    rfl

/-- A `min`-fold never exceeds its seed. -/
theorem foldl_min_le_init (xs : List Nat) : ∀ a : Nat, xs.foldl min a ≤ a := by
  induction xs with
  | nil => intro a; simp
  | cons x t ih =>
    intro a
    exact le_trans (ih (min a x)) (min_le_left a x)

/-- A `min`-fold is a lower bound of the list. -/
theorem foldl_min_le (xs : List Nat) :
    ∀ a y : Nat, y ∈ xs → xs.foldl min a ≤ y := by
  induction xs with
  | nil =>
    intro a y hy
    simp at hy
  | cons x t ih =>
    intro a y hy
    rcases List.mem_cons.mp hy with rfl | hy'
    · exact le_trans (foldl_min_le_init t (min a y)) (min_le_right a y)
    · exact ih (min a x) y hy'

/-- A `min`-fold is either its seed or an element of the list. -/
theorem foldl_min_mem (xs : List Nat) :
    ∀ a : Nat, xs.foldl min a = a ∨ xs.foldl min a ∈ xs := by
  induction xs with
  | nil => intro a; left; rfl
  | cons x t ih =>
    intro a
    rcases ih (min a x) with h | h
    · rcases le_total a x with hax | hxa
      · left
        rw [List.foldl_cons, h, min_eq_left hax]
      · right
        rw [List.foldl_cons, h, min_eq_right hxa]
        exact List.mem_cons_self x t
    · right
      rw [List.foldl_cons]
      exact List.mem_cons_of_mem x h

/-- A `max`-fold is at least its seed. -/
theorem foldl_max_ge_init (xs : List Nat) : ∀ a : Nat, a ≤ xs.foldl max a := by
  induction xs with
  | nil => intro a; simp
  | cons x t ih =>
    intro a
    exact le_trans (le_max_left a x) (ih (max a x))

/-- A `max`-fold is an upper bound of the list. -/
theorem foldl_max_ge (xs : List Nat) :
    ∀ a y : Nat, y ∈ xs → y ≤ xs.foldl max a := by
  induction xs with
  | nil =>
    intro a y hy
    simp at hy
  | cons x t ih =>
    intro a y hy
    rcases List.mem_cons.mp hy with rfl | hy'
    · exact le_trans (le_max_right a y) (foldl_max_ge_init t (max a y))
    · exact ih (max a x) y hy'

/-- A `max`-fold is either its seed or an element of the list. -/
theorem foldl_max_mem (xs : List Nat) :
    ∀ a : Nat, xs.foldl max a = a ∨ xs.foldl max a ∈ xs := by
  induction xs with
  | nil => intro a; left; rfl
  | cons x t ih =>
    intro a
    rcases ih (max a x) with h | h
    · rcases le_total x a with hxa | hax
      · left
        rw [List.foldl_cons, h, max_eq_left hxa]
      · right
        rw [List.foldl_cons, h, max_eq_right hax]
        exact List.mem_cons_self x t
    · right
      rw [List.foldl_cons]
      exact List.mem_cons_of_mem x h

/-- The rolling window after a fold of insertions: the last 10 of the old
window followed by the inserted values, in arrival order. -/
theorem foldl_add_window (xs : List Nat) :
    ∀ s : LatencyStats, s.last_10.length ≤ 10 →
      (xs.foldl add_measurement s).last_10 =
        (s.last_10 ++ xs).drop (s.last_10.length + xs.length - 10) := by
  induction xs with
  | nil =>
    intro s hs
    simp only [List.foldl_nil, List.append_nil, List.length_nil, Nat.add_zero]
    have h0 : s.last_10.length - 10 = 0 := by omega
    rw [h0, List.drop_zero]
  | cons x t ih =>
    intro s hs
    rw [List.foldl_cons]
    by_cases hfull : s.last_10.length ≥ 10
    · have hlen10 : s.last_10.length = 10 := by omega
      have hs' : (add_measurement s x).last_10.length ≤ 10 := by
        simp only [add_measurement, if_pos hfull, List.length_append,
          List.length_drop, List.length_cons, List.length_nil]
        omega
      rw [ih _ hs']
      simp only [add_measurement, if_pos hfull]
      have e1 : (s.last_10.drop 1 ++ [x]).length + t.length - 10 = t.length := by
        simp only [List.length_append, List.length_drop, List.length_cons,
          List.length_nil]
        omega
      have e2 : s.last_10.length + (x :: t).length - 10 = t.length + 1 := by
        simp only [List.length_cons]
        omega
      rw [e1, e2]
      rcases hnil : s.last_10 with _ | ⟨h0, tl⟩
      · rw [hnil] at hlen10
        simp at hlen10
      · simp [List.append_assoc, List.drop_succ_cons]
    · have hs' : (add_measurement s x).last_10.length ≤ 10 := by
        simp only [add_measurement, if_neg hfull, List.length_append,
          List.length_cons, List.length_nil]
        omega
      rw [ih _ hs']
      simp only [add_measurement, if_neg hfull]
      have e : (s.last_10 ++ [x]).length + t.length - 10 =
          s.last_10.length + (x :: t).length - 10 := by
        simp only [List.length_append, List.length_cons, List.length_nil]
        omega
      rw [e, List.append_assoc]
      simp

/-! ## Claims about the aggregator -/

/-- C7: after inserting any 15 `u64` latency values into a fresh aggregator,
the rolling window holds exactly the last 10 in arrival order (`xs.drop 5`),
`count` equals 15, and the running min/max are attained by and bound all 15
inserted values — not just the windowed ones. -/
theorem aggregator_window_and_stats (xs : List Nat) (h15 : xs.length = 15)
    (hb : ∀ x ∈ xs, x < 2 ^ 64) :
    (xs.foldl add_measurement LatencyStats.new).count = 15 ∧
    (xs.foldl add_measurement LatencyStats.new).last_10 = xs.drop 5 ∧
    ((xs.foldl add_measurement LatencyStats.new).min_latency_ns ∈ xs ∧
      ∀ y ∈ xs, (xs.foldl add_measurement LatencyStats.new).min_latency_ns ≤ y) ∧
    ((xs.foldl add_measurement LatencyStats.new).max_latency_ns ∈ xs ∧
      ∀ y ∈ xs, y ≤ (xs.foldl add_measurement LatencyStats.new).max_latency_ns) := by
  have hmin : (xs.foldl add_measurement LatencyStats.new).min_latency_ns =
      xs.foldl min (2 ^ 64 - 1) := by
    rw [foldl_add_min]
    rfl
  have hmax : (xs.foldl add_measurement LatencyStats.new).max_latency_ns =
      xs.foldl max 0 := by
    rw [foldl_add_max]
    rfl
  have hne : xs ≠ [] := by
    intro hxe
    rw [hxe] at h15
    simp at h15
  obtain ⟨a, ha⟩ := List.exists_mem_of_ne_nil xs hne
  refine ⟨?_, ?_, ⟨?_, ?_⟩, ⟨?_, ?_⟩⟩
  · rw [foldl_add_count xs _ (by norm_num [LatencyStats.new]), h15]
    rfl
  · rw [foldl_add_window xs _ (by simp [LatencyStats.new])]
    simp [LatencyStats.new, h15]
  · rcases foldl_min_mem xs (2 ^ 64 - 1) with h | h
    · have hle : xs.foldl min (2 ^ 64 - 1) ≤ a := foldl_min_le xs _ a ha
      have haU : a < 2 ^ 64 := hb a ha
      rw [hmin]
      have hfa : xs.foldl min (2 ^ 64 - 1) = a := by omega
      rw [hfa]
      exact ha
    · rw [hmin]
      exact h
  · intro y hy
    rw [hmin]
    exact foldl_min_le xs _ y hy
  · rcases foldl_max_mem xs 0 with h | h
    · have hge : a ≤ xs.foldl max 0 := foldl_max_ge xs 0 a ha
      rw [hmax]
      have hfa : xs.foldl max 0 = a := by omega
      rw [hfa]
      exact ha
    · rw [hmax]
      exact h
  · intro y hy
    rw [hmax]
    exact foldl_max_ge xs 0 y hy

/-- Witness for C7 at a concrete sequence of 15 measurements. -/
theorem aggregator_window_and_stats_witness :
    (([3, 1, 4, 1, 5, 9, 2, 6, 5, 3, 5, 8, 9, 7, 9] : List Nat).foldl
      add_measurement LatencyStats.new).count = 15 ∧
    (([3, 1, 4, 1, 5, 9, 2, 6, 5, 3, 5, 8, 9, 7, 9] : List Nat).foldl
      add_measurement LatencyStats.new).last_10 =
      ([3, 1, 4, 1, 5, 9, 2, 6, 5, 3, 5, 8, 9, 7, 9] : List Nat).drop 5 ∧
    ((([3, 1, 4, 1, 5, 9, 2, 6, 5, 3, 5, 8, 9, 7, 9] : List Nat).foldl
        add_measurement LatencyStats.new).min_latency_ns ∈
        ([3, 1, 4, 1, 5, 9, 2, 6, 5, 3, 5, 8, 9, 7, 9] : List Nat) ∧
      ∀ y ∈ ([3, 1, 4, 1, 5, 9, 2, 6, 5, 3, 5, 8, 9, 7, 9] : List Nat),
        (([3, 1, 4, 1, 5, 9, 2, 6, 5, 3, 5, 8, 9, 7, 9] : List Nat).foldl
          add_measurement LatencyStats.new).min_latency_ns ≤ y) ∧
    ((([3, 1, 4, 1, 5, 9, 2, 6, 5, 3, 5, 8, 9, 7, 9] : List Nat).foldl
        add_measurement LatencyStats.new).max_latency_ns ∈
        ([3, 1, 4, 1, 5, 9, 2, 6, 5, 3, 5, 8, 9, 7, 9] : List Nat) ∧
      ∀ y ∈ ([3, 1, 4, 1, 5, 9, 2, 6, 5, 3, 5, 8, 9, 7, 9] : List Nat),
        y ≤ (([3, 1, 4, 1, 5, 9, 2, 6, 5, 3, 5, 8, 9, 7, 9] : List Nat).foldl
          add_measurement LatencyStats.new).max_latency_ns) :=
  aggregator_window_and_stats [3, 1, 4, 1, 5, 9, 2, 6, 5, 3, 5, 8, 9, 7, 9]
    rfl (by decide)

/-! ## Claims about the connection state machine -/

/-- C5: once the connection is closed (the `closed` flag covering the
spec's Closing/Closed states), every send operation fails with
`ConnectionClosed`, while `close_with_code` (and so `close`) succeeds as a
no-op leaving the state unchanged and writing nothing. -/
theorem closed_connection_send_ops (st : ClientState)
    (maskKey textBytes data pingData pongData reason : List Nat) (code : Nat)
    (h : st.closed = true) :
    send_text st maskKey textBytes = .error .ConnectionClosed ∧
    send_binary st maskKey data = .error .ConnectionClosed ∧
    send_ping st maskKey pingData = .error .ConnectionClosed ∧
    send_pong st maskKey pongData = .error .ConnectionClosed ∧
    close_with_code st maskKey code reason = .ok (st, []) ∧
    close st maskKey = .ok (st, []) := by
  simp [send_text, send_binary, send_ping, send_pong, close_with_code, close, h]

/-- Witness for C5 at a concrete closed state and concrete arguments. -/
theorem closed_connection_send_ops_witness :
    send_text ⟨true, MAX_FRAME_SIZE⟩ [1, 2, 3, 4] [104] = .error .ConnectionClosed ∧
    send_binary ⟨true, MAX_FRAME_SIZE⟩ [1, 2, 3, 4] [0] = .error .ConnectionClosed ∧
    send_ping ⟨true, MAX_FRAME_SIZE⟩ [1, 2, 3, 4] [1] = .error .ConnectionClosed ∧
    send_pong ⟨true, MAX_FRAME_SIZE⟩ [1, 2, 3, 4] [2] = .error .ConnectionClosed ∧
    close_with_code ⟨true, MAX_FRAME_SIZE⟩ [1, 2, 3, 4] 1002 [65] =
      .ok (⟨true, MAX_FRAME_SIZE⟩, []) ∧
    close ⟨true, MAX_FRAME_SIZE⟩ [1, 2, 3, 4] = .ok (⟨true, MAX_FRAME_SIZE⟩, []) :=
  closed_connection_send_ops ⟨true, MAX_FRAME_SIZE⟩ [1, 2, 3, 4] [104] [0] [1] [2] [65] 1002 rfl

/-! ## Claims about URL parsing -/

/-- C1 counterexample: a URL whose scheme is `http` (neither `ws` nor `wss`)
but which carries an explicit port parses successfully — no protocol error is
raised, contradicting the claim that every non-ws/wss scheme is a hard parse
failure. -/
theorem scheme_check_bypassed_with_port :
    parse_websocket_url "http://example.com:8080/" =
      .ok ⟨"http", "example.com", 8080, "/"⟩ ∧
    ∀ e : WsError, parse_websocket_url "http://example.com:8080/" ≠ .error e := by
  constructor
  · rfl
  · intro e h
    rw [show parse_websocket_url "http://example.com:8080/" =
      .ok ⟨"http", "example.com", 8080, "/"⟩ from rfl] at h
    exact Except.noConfusion h

/-- C1 amended: the scheme check only runs in the default-port branch — for
every URL with a `://` separator, no colon in its host-port section, and a
scheme other than `ws`/`wss`, `parse_websocket_url` fails with the
`Invalid scheme` protocol error. -/
theorem invalid_scheme_rejected_without_port (url : String) (i : Nat)
    (hsep : findSubstr ("://".data) url.data = some i)
    (hcolon : rfindColon (hostPortOf (url.data.drop (i + 3))) = none)
    (hws : url.data.take i ≠ "ws".data)
    (hwss : url.data.take i ≠ "wss".data) :
    parse_websocket_url url = .error (.ProtocolError "Invalid scheme") := by
  simp [parse_websocket_url, hsep, hcolon, hws, hwss]

/-- Witness for the amended C1 at the concrete portless URL
`http://example.com`. -/
theorem invalid_scheme_rejected_without_port_witness :
    findSubstr ("://".data) ("http://example.com").data = some 4 ∧
    rfindColon (hostPortOf (("http://example.com").data.drop 7)) = none ∧
    ("http://example.com").data.take 4 ≠ "ws".data ∧
    ("http://example.com").data.take 4 ≠ "wss".data ∧
    parse_websocket_url "http://example.com" = .error (.ProtocolError "Invalid scheme") :=
  ⟨by decide, by decide, by decide, by decide,
    invalid_scheme_rejected_without_port "http://example.com" 4
      (by decide) (by decide) (by decide) (by decide)⟩

/-! ## Claims about message dispatch -/

/-- C10: a received close frame with a payload of exactly 1 byte is not an
error: `read_message` returns `Close` with no code and an empty reason (the
same result as an absent payload) and the connection is marked closed. -/
theorem close_frame_one_byte_payload (max b : Nat) (extra : List Nat)
    (hmax : 1 ≤ max) :
    read_message ⟨false, max⟩ (0x88 :: 0x01 :: b :: extra) =
      .ok (.Close none "", ⟨true, max⟩, extra) := by
  have h1 : ¬ (1 > max) := by omega
  have h2 : (136 &&& 112) >>> 4 = 0 := by decide
  have h3 : 136 &&& 15 = 8 := by decide
  simp [read_message, read_frame, readPayloadLen, is_control_frame, h1, h2, h3,
    OPCODE_TEXT, OPCODE_BINARY, OPCODE_PING, OPCODE_PONG, OPCODE_CLOSE]

/-- Witness for C10 at a concrete one-byte close frame. -/
theorem close_frame_one_byte_payload_witness :
    1 ≤ MAX_FRAME_SIZE ∧
    read_message ⟨false, MAX_FRAME_SIZE⟩ [0x88, 0x01, 0xAB] =
      .ok (.Close none "", ⟨true, MAX_FRAME_SIZE⟩, []) :=
  ⟨by decide, close_frame_one_byte_payload MAX_FRAME_SIZE 0xAB [] (by decide)⟩

/-! ## Claims about the frame decoder -/

/-- C3: a frame header whose resolved payload length exceeds the configured
maximum is rejected with `FrameTooLarge` for *every* continuation of the
input — in particular for the empty continuation carrying no payload bytes at
all — showing the size check fires before the payload is read or a buffer for
it is allocated. -/
theorem oversized_frame_rejected_early (maxSize b0 l : Nat) (rest : List Nat)
    (hrsv : b0 &&& 0x70 = 0) (hl : l < 2 ^ 63) (hmax : maxSize < l) :
    read_frame maxSize (b0 :: lenBytesPlain l ++ rest) = .error .FrameTooLarge := by
  rcases Nat.lt_or_ge l 126 with h126 | h126
  · have hb := lenByteBits l (by omega)
    have hne1 : l ≠ 126 := by omega
    have hne2 : l ≠ 127 := by omega
    simp [lenBytesPlain, h126, read_frame, readPayloadLen, hrsv, hb.2.2.1, hb.2.2.2,
      hne1, hne2, hmax]
  · rcases Nat.lt_or_ge l 65536 with h65536 | h65536
    · have hnl1 : ¬ l < 126 := by omega
      have hdec : l % 65536 / 256 * 256 + l % 256 = l := by omega
      have e1 : 126 &&& 128 = 0 := by decide
      have e2 : 126 &&& 127 = 126 := by decide
      simp [lenBytesPlain, hnl1, h65536, read_frame, readPayloadLen, be2, hrsv,
        e1, e2, hdec, hmax]
    · have hnl1 : ¬ l < 126 := by omega
      have hnl2 : ¬ l < 65536 := by omega
      have hdec : ((((((l % 18446744073709551616 / 72057594037927936 * 256
          + l % 72057594037927936 / 281474976710656) * 256
          + l % 281474976710656 / 1099511627776) * 256
          + l % 1099511627776 / 4294967296) * 256
          + l % 4294967296 / 16777216) * 256 + l % 16777216 / 65536) * 256
          + l % 65536 / 256) * 256 + l % 256 = l := by omega
      have e1 : 127 &&& 128 = 0 := by decide
      have e2 : ¬ (127 &&& 127 = 126) := by decide
      have e3 : 127 &&& 127 = 127 := by decide
      simp [lenBytesPlain, hnl1, hnl2, read_frame, readPayloadLen, be8, hrsv,
        e1, e2, e3, hdec, and_msb_zero l hl, hmax]

/-- Witness for C3: a declared length of 6 against a configured maximum of 5
is rejected with `FrameTooLarge` even though no payload bytes follow. -/
theorem oversized_frame_rejected_early_witness :
    (130 &&& 0x70 = 0) ∧ (6 : Nat) < 2 ^ 63 ∧ (5 : Nat) < 6 ∧
    read_frame 5 (130 :: lenBytesPlain 6 ++ []) = .error .FrameTooLarge :=
  ⟨by decide, by decide, by decide,
    oversized_frame_rejected_early 5 130 6 [] (by decide) (by decide) (by decide)⟩

/-- Decoding a well-formed server frame (reserved bits of the first byte
clear, length within bounds): the result is fully determined by the
control-frame checks — the fragmentation error when the opcode is a control
opcode and FIN is clear, the size error when it is a control opcode with a
payload over 125 bytes, and otherwise the decoded frame. -/
theorem read_frame_server_general (maxSize b0 : Nat) (data extra : List Nat)
    (hrsv : b0 &&& 0x70 = 0) (hlen : data.length ≤ maxSize)
    (h63 : data.length < 2 ^ 63) :
    read_frame maxSize (b0 :: lenBytesPlain data.length ++ data ++ extra) =
      if is_control_frame (b0 &&& 0x0f) = true ∧ decide (b0 &&& 0x80 ≠ 0) = false then
        .error (.ProtocolError "Control frames must not be fragmented")
      else if is_control_frame (b0 &&& 0x0f) = true ∧ data.length > 125 then
        .error (.ProtocolError "Control frame payload too large")
      else .ok (⟨decide (b0 &&& 0x80 ≠ 0), b0 &&& 0x0f, data⟩, extra) := by
  have hnmax : ¬ data.length > maxSize := by omega
  have hlen2 : ¬ ((data ++ extra).length < data.length) := by
    simp [List.length_append]
  rcases Nat.lt_or_ge data.length 126 with h1 | h1
  · obtain ⟨_, _, hc3, hc4⟩ := lenByteBits data.length (by omega)
    have hne1 : data.length ≠ 126 := by omega
    have hne2 : data.length ≠ 127 := by omega
    simp [lenBytesPlain, h1, read_frame, readPayloadLen, hrsv, hc3, hc4, hne1,
      hne2, hnmax, hlen2, List.take_left, List.drop_left]
  · have hn1 : ¬ data.length < 126 := by omega
    rcases Nat.lt_or_ge data.length 65536 with h2 | h2
    · have e1 : (126 &&& 128 : Nat) = 0 := by decide
      have e2 : (126 &&& 127 : Nat) = 126 := by decide
      have hdec : data.length % 65536 / 256 * 256 + data.length % 256 =
          data.length := by omega
      simp [lenBytesPlain, hn1, h2, read_frame, readPayloadLen, be2, hrsv, e1, e2,
        hdec, hnmax, hlen2, List.take_left, List.drop_left]
    · have hn2 : ¬ data.length < 65536 := by omega
      have e1 : (127 &&& 128 : Nat) = 0 := by decide
      have e2 : ¬ ((127 &&& 127 : Nat) = 126) := by decide
      have e3 : (127 &&& 127 : Nat) = 127 := by decide
      have hdec : ((((((data.length % 18446744073709551616 / 72057594037927936 * 256
          + data.length % 72057594037927936 / 281474976710656) * 256
          + data.length % 281474976710656 / 1099511627776) * 256
          + data.length % 1099511627776 / 4294967296) * 256
          + data.length % 4294967296 / 16777216) * 256
          + data.length % 16777216 / 65536) * 256
          + data.length % 65536 / 256) * 256 + data.length % 256 =
          data.length := by omega
      have hmsb : data.length &&& 0x8000000000000000 = 0 :=
        and_msb_zero data.length (by omega)
      simp [lenBytesPlain, hn1, hn2, read_frame, readPayloadLen, be8, hrsv, e1, e2,
        e3, hdec, hmsb, hnmax, hlen2, List.take_left, List.drop_left]

/-- C4: a wire frame carrying a control opcode (ping/pong/close, numerically
at least 0x8) that violates the control rules is rejected with a protocol
error and never delivered: with FIN unset (bare opcode first byte) the
decoder returns the fragmentation protocol error for any payload, and with
FIN set but a payload longer than 125 bytes it returns the payload-size
protocol error; in both cases `read_message` propagates the same error
instead of a message. -/
theorem control_frame_violation_rejected (maxSize op : Nat) (data extra : List Nat)
    (hop8 : 0x8 ≤ op) (hop16 : op < 16)
    (hlen : data.length ≤ maxSize) (h63 : data.length < 2 ^ 63) :
    (read_frame maxSize (op :: lenBytesPlain data.length ++ data ++ extra) =
        .error (.ProtocolError "Control frames must not be fragmented") ∧
      read_message ⟨false, maxSize⟩ (op :: lenBytesPlain data.length ++ data ++ extra) =
        .error (.ProtocolError "Control frames must not be fragmented")) ∧
    (data.length > 125 →
      read_frame maxSize ((0x80 ||| op) :: lenBytesPlain data.length ++ data ++ extra) =
          .error (.ProtocolError "Control frame payload too large") ∧
        read_message ⟨false, maxSize⟩
            ((0x80 ||| op) :: lenBytesPlain data.length ++ data ++ extra) =
          .error (.ProtocolError "Control frame payload too large")) := by
  obtain ⟨hb1, hb2, hb3⟩ := ctrlByteBits op hop16
  have hctrl : is_control_frame op = true := by
    simp only [is_control_frame, decide_eq_true_eq]
    omega
  constructor
  · have hA := read_frame_server_general maxSize op data extra (by rw [hb2]) hlen h63
    rw [hb3, hb1] at hA
    simp only [hctrl] at hA
    simp at hA
    constructor
    · simpa using hA
    · simp [read_message, hA]
  · intro h125
    obtain ⟨ho1, ho2, ho3, ho4⟩ := hdrByteBits op hop16
    have hB := read_frame_server_general maxSize (0x80 ||| op) data extra
      (by rw [ho1, ho3]) hlen h63
    rw [ho1, ho4, ho2] at hB
    simp only [hctrl] at hB
    simp [h125] at hB
    rw [ho1]
    constructor
    · simpa using hB
    · simp [read_message, hB]

/-- Witness for C4 at a concrete violating ping frame: a 126-byte ping with
FIN unset is rejected as fragmented, and with FIN set as oversized; neither
reaches the application. -/
theorem control_frame_violation_rejected_witness :
    (read_frame MAX_FRAME_SIZE
        (9 :: lenBytesPlain (List.replicate 126 0).length ++ List.replicate 126 0 ++ []) =
        .error (.ProtocolError "Control frames must not be fragmented") ∧
      read_message ⟨false, MAX_FRAME_SIZE⟩
          (9 :: lenBytesPlain (List.replicate 126 0).length ++ List.replicate 126 0 ++ []) =
        .error (.ProtocolError "Control frames must not be fragmented")) ∧
    (read_frame MAX_FRAME_SIZE ((0x80 ||| 9) :: lenBytesPlain (List.replicate 126 0).length
          ++ List.replicate 126 0 ++ []) =
        .error (.ProtocolError "Control frame payload too large") ∧
      read_message ⟨false, MAX_FRAME_SIZE⟩ ((0x80 ||| 9) ::
          lenBytesPlain (List.replicate 126 0).length ++ List.replicate 126 0 ++ []) =
        .error (.ProtocolError "Control frame payload too large")) :=
  ⟨(control_frame_violation_rejected MAX_FRAME_SIZE 9 (List.replicate 126 0) []
      (by decide) (by decide) (by decide) (by decide)).1,
    (control_frame_violation_rejected MAX_FRAME_SIZE 9 (List.replicate 126 0) []
      (by decide) (by decide) (by decide) (by decide)).2 (by decide)⟩

/-- Complementary invariant for C4: every frame the decoder *does* deliver
whose opcode is a control opcode has FIN set and a payload of at most
125 bytes. -/
theorem control_frame_validated (maxSize : Nat) (input : List Nat)
    (frame : WebSocketFrame) (rest : List Nat)
    (h : read_frame maxSize input = .ok (frame, rest)) (hc : 0x8 ≤ frame.opcode) :
    frame.fin = true ∧ frame.payload.length ≤ 125 := by
  rcases input with _ | ⟨b0, _ | ⟨b1, rest2⟩⟩
  · exact absurd h (by simp [read_frame])
  · exact absurd h (by simp [read_frame])
  · simp only [read_frame] at h
    repeat' split at h
    any_goals exact Except.noConfusion h
    all_goals simp only [Except.ok.injEq, Prod.mk.injEq] at h
    all_goals obtain ⟨h4, h5⟩ := h
    all_goals subst h4
    all_goals simp_all [is_control_frame, Nat.not_lt, List.length_take]

/-- C2 counterexample: encoding with the client encoder and decoding with the
client decoder does NOT return the original frame — `send_frame` always sets
the mask bit, and `read_frame` rejects every masked frame with a protocol
error.  Shown at the text opcode with the empty payload (length 0). -/
theorem client_round_trip_rejected :
    send_frame MAX_FRAME_SIZE OPCODE_TEXT [0, 0, 0, 0] [] =
      .ok [0x81, 0x80, 0, 0, 0, 0] ∧
    read_frame MAX_FRAME_SIZE [0x81, 0x80, 0, 0, 0, 0] =
      .error (.ProtocolError "Server frames must not be masked") :=
  ⟨rfl, rfl⟩

/-- C2 amended: for every data opcode and every payload within the configured
maximum (covering lengths 0, 1, 125, 126, 65535, 65536 and 1,000,000),
(a) the client encoder succeeds but its masked output is rejected by the
client decoder with the masked-frame protocol error, (b) XOR masking with the
same key is self-inverse, and (c) the same frame with masking removed
(`serverFrame`: identical first byte and length encoding, mask bit clear, no
key, raw payload) decodes to exactly the original payload and opcode with FIN
set. -/
theorem frame_round_trip_amended (op : Nat) (payload maskKey extra : List Nat)
    (hop : op < 8) (hlen : payload.length ≤ MAX_FRAME_SIZE) :
    (∃ bytes, send_frame MAX_FRAME_SIZE op maskKey payload = .ok bytes ∧
        read_frame MAX_FRAME_SIZE bytes =
          .error (.ProtocolError "Server frames must not be masked")) ∧
    mask_bytes maskKey (mask_bytes maskKey payload) = payload ∧
    read_frame MAX_FRAME_SIZE (serverFrame op payload ++ extra) =
      .ok (⟨true, op, payload⟩, extra) := by
  have hop16 : op < 16 := by omega
  obtain ⟨ho1, ho2, ho3, ho4⟩ := hdrByteBits op hop16
  have hctrl : is_control_frame op = false := by
    simp only [is_control_frame, decide_eq_false_iff_not]
    omega
  have hmaxeq : MAX_FRAME_SIZE = 16777216 := rfl
  have hnlen : ¬ payload.length > MAX_FRAME_SIZE := by omega
  refine ⟨⟨(0x80 ||| op) :: (if payload.length < 126 then [0x80 ||| payload.length]
      else if payload.length < 65536 then (0x80 ||| 126) :: be2 payload.length
      else (0x80 ||| 127) :: be8 payload.length) ++ maskKey ++ mask_bytes maskKey payload,
      ?_, ?_⟩, mask_bytes_involution maskKey payload, ?_⟩
  · simp [send_frame, hnlen]
  · rcases Nat.lt_or_ge payload.length 126 with h1 | h1
    · obtain ⟨hb1, hb2, _, _⟩ := lenByteBits payload.length (by omega)
      simp [h1, read_frame, ho1, ho3, hb1, hb2]
    · have hn1 : ¬ payload.length < 126 := by omega
      rcases Nat.lt_or_ge payload.length 65536 with h2 | h2
      · have e1 : (128 ||| 126 : Nat) = 254 := by decide
        have e2 : (254 &&& 128 : Nat) = 128 := by decide
        simp [hn1, h2, read_frame, ho1, ho3, e1, e2]
      · have hn2 : ¬ payload.length < 65536 := by omega
        have e1 : (128 ||| 127 : Nat) = 255 := by decide
        have e2 : (255 &&& 128 : Nat) = 128 := by decide
        simp [hn1, hn2, read_frame, ho1, ho3, e1, e2]
  · have hlen2 : ¬ ((payload ++ extra).length < payload.length) := by
      simp [List.length_append]
    rcases Nat.lt_or_ge payload.length 126 with h1 | h1
    · obtain ⟨_, _, hc3, hc4⟩ := lenByteBits payload.length (by omega)
      have hne1 : payload.length ≠ 126 := by omega
      have hne2 : payload.length ≠ 127 := by omega
      simp [serverFrame, lenBytesPlain, h1, read_frame, readPayloadLen, ho1, ho2,
        ho3, ho4, hc3, hc4, hne1, hne2, hnlen, hlen2, hctrl, List.take_left,
        List.drop_left]
    · have hn1 : ¬ payload.length < 126 := by omega
      rcases Nat.lt_or_ge payload.length 65536 with h2 | h2
      · have e1 : (126 &&& 128 : Nat) = 0 := by decide
        have e2 : (126 &&& 127 : Nat) = 126 := by decide
        have hdec : payload.length % 65536 / 256 * 256 + payload.length % 256 =
            payload.length := by omega
        simp [serverFrame, lenBytesPlain, hn1, h2, read_frame, readPayloadLen, be2,
          ho1, ho2, ho3, ho4, e1, e2, hdec, hnlen, hlen2, hctrl, List.take_left,
          List.drop_left]
      · have hn2 : ¬ payload.length < 65536 := by omega
        have e1 : (127 &&& 128 : Nat) = 0 := by decide
        have e2 : ¬ ((127 &&& 127 : Nat) = 126) := by decide
        have e3 : (127 &&& 127 : Nat) = 127 := by decide
        have hdec : ((((((payload.length % 18446744073709551616 / 72057594037927936 * 256
            + payload.length % 72057594037927936 / 281474976710656) * 256
            + payload.length % 281474976710656 / 1099511627776) * 256
            + payload.length % 1099511627776 / 4294967296) * 256
            + payload.length % 4294967296 / 16777216) * 256
            + payload.length % 16777216 / 65536) * 256
            + payload.length % 65536 / 256) * 256 + payload.length % 256 =
            payload.length := by omega
        have hmsb : payload.length &&& 0x8000000000000000 = 0 :=
          and_msb_zero payload.length (by omega)
        simp [serverFrame, lenBytesPlain, hn1, hn2, read_frame, readPayloadLen, be8,
          ho1, ho2, ho3, ho4, e1, e2, e3, hdec, hmsb, hnlen, hlen2, hctrl,
          List.take_left, List.drop_left]

/-- Witness for the amended C2 at the text opcode with a 1,000,000-byte
payload and a concrete mask key. -/
theorem frame_round_trip_amended_witness :
    (∃ bytes, send_frame MAX_FRAME_SIZE 1 [1, 2, 3, 4] (List.replicate 1000000 7) =
        .ok bytes ∧
      read_frame MAX_FRAME_SIZE bytes =
        .error (.ProtocolError "Server frames must not be masked")) ∧
    mask_bytes [1, 2, 3, 4] (mask_bytes [1, 2, 3, 4] (List.replicate 1000000 7)) =
      List.replicate 1000000 7 ∧
    read_frame MAX_FRAME_SIZE (serverFrame 1 (List.replicate 1000000 7) ++ []) =
      .ok (⟨true, 1, List.replicate 1000000 7⟩, []) :=
  frame_round_trip_amended 1 (List.replicate 1000000 7) [1, 2, 3, 4] []
    (by decide) (by rw [List.length_replicate]; decide)

/-- Witness for C4 at a concrete well-formed ping frame. -/
theorem control_frame_validated_witness :
    read_frame MAX_FRAME_SIZE [0x89, 0x01, 0x61] = .ok (⟨true, 9, [0x61]⟩, []) ∧
    (0x8 : Nat) ≤ 9 ∧
    (true = true ∧ ([0x61] : List Nat).length ≤ 125) :=
  ⟨by rfl, by decide,
    control_frame_validated MAX_FRAME_SIZE [0x89, 0x01, 0x61] ⟨true, 9, [0x61]⟩ []
      (by rfl) (by decide)⟩

example : parse_websocket_url "wss://stream.binance.com:9443/ws" =
    .ok ⟨"wss", "stream.binance.com", 9443, "/ws"⟩ := by rfl

example : parse_websocket_url "ftp://example.com" =
    .error (.ProtocolError "Invalid scheme") := by rfl

example : parse_websocket_url "http://example.com:8080/" =
    .ok ⟨"http", "example.com", 8080, "/"⟩ := by rfl

example : parse_websocket_url "no-separator" =
    .error (.ProtocolError "Invalid URL format") := by rfl

example : parse_websocket_url "ws://h" = .ok ⟨"ws", "h", 80, "/"⟩ := by rfl

example : read_message ⟨false, MAX_FRAME_SIZE⟩ [0x88, 0x01, 0xAB] =
    .ok (.Close none "", ⟨true, MAX_FRAME_SIZE⟩, []) := by rfl

example : read_message ⟨false, MAX_FRAME_SIZE⟩ [0x81, 0x02, 0x68, 0x69] =
    .ok (.Text "hi", ⟨false, MAX_FRAME_SIZE⟩, []) := by rfl

example : read_frame MAX_FRAME_SIZE [0x81, 0x80, 0, 0, 0, 0] =
    .error (.ProtocolError "Server frames must not be masked") := by rfl

example : read_frame MAX_FRAME_SIZE [0x89, 0x00] = .ok (⟨true, 9, []⟩, []) := by rfl

example : read_frame MAX_FRAME_SIZE [0x81, 0x02, 65, 66, 99] =
    .ok (⟨true, 1, [65, 66]⟩, [99]) := by rfl

end CexConnector
